import Mathlib

/-!
Shallow embedding of `src/index.js`, a serverless file-upload handler:
`upload` parses a multipart body, and for each parsed file derives an
extension from its declared content-type, generates a key
`<uuid>.<extension>`, and issues one S3 PUT with the file as the body.

Modelling choices, all taken from the source:
* JS `null`/`undefined` values are `Option.none`; a JS object used as a
  string-keyed map is an association list, where absent keys look up to
  `none` (JS `undefined`).
* Effects are made explicit: each operation returns the list of storage
  PUTs it issued and the console log entries it emitted, alongside its
  `Except` result (a JS promise that fulfills is `.ok`, one that rejects
  is `.error`).
* `uuidv4()` and `process.env.file_s3_bucket_name` are external inputs,
  passed as a supply `uuids : Nat -> String` (indexed by file position)
  and a `bucket : Option String`.
* The S3 backend is an oracle `s3 : PutOp -> Option JsError`; `none`
  means the PUT succeeds, `some e` means it fails with error `e`.
* The multipart decoder is modelled by the list of events it emits, in
  emission order; the promise in `parseMultipartFormData` settles on the
  first event.  For `Promise.all` we take settlement order to be list
  order, so the propagated rejection is the first error in list order.
* Line 74 of the source interpolates the identifier `fileName` into the
  success log message, but `fileName` is declared nowhere; evaluating
  the template literal therefore raises
  `ReferenceError: fileName is not defined` inside the `try` block, and
  the `catch` logs and rethrows it.  The embedding reproduces this.
-/

/-- Errors a JS computation can reject with: `new Error(msg)` values thrown
by `getFileExtension`, the `ReferenceError` raised by reading an undeclared
identifier, an error emitted by the `lambda-multipart` decoder, and an error
returned by the `aws-sdk` S3 client. -/
inductive JsError where
  | error (msg : String)
  | referenceError (name : String)
  | parseError (msg : String)
  | storageError (msg : String)
  deriving DecidableEq

/-- A parsed per-part header object (JS object as association list); an
absent key looks up to `none`, modelling JS `undefined`. -/
def Headers := List (String × String)

instance : DecidableEq Headers := by
  unfold Headers
  infer_instance

/-- One uploaded file as produced by the decoder: its per-part `headers`
property (`none` when the record has no headers object) and its raw
content bytes. -/
structure FileRecord where
  headers : Option Headers
  content : String
  deriving DecidableEq

/-- The object the decoder passes to the `finish` listener: `result.fields`
and `result.files`; `files` may be `null`/`undefined` (`none`). -/
structure MultipartResult where
  fields : List (String × String)
  files : Option (List FileRecord)
  deriving DecidableEq

/-- One notification emitted by the `lambda-multipart` parser: either a
`finish` event carrying the parse result or an `error` event. -/
inductive ParserEvent where
  | finish (result : MultipartResult)
  | error (e : JsError)
  deriving DecidableEq

/-- One S3 PUT operation as assembled at lines 65-69 of the source:
`Bucket` from the environment, `Key` from the uuid and extension, and
`Body: file` (the whole file record; the bytes stored are its `content`). -/
structure PutOp where
  bucket : Option String
  key : String
  body : FileRecord
  deriving DecidableEq

/-- A console log entry: `console.log` of a message or `console.error` of
an error value. -/
inductive LogEntry where
  | log (msg : String)
  | logError (e : JsError)
  deriving DecidableEq

instance {ε α : Type} [DecidableEq ε] [DecidableEq α] : DecidableEq (Except ε α) :=
  fun x y =>
    match x, y with
    | Except.ok a, Except.ok b =>
      if h : a = b then isTrue (by rw [h])
      else isFalse (fun hc => h (Except.ok.inj hc))
    | Except.ok _, Except.error _ => isFalse (fun hc => Except.noConfusion hc)
    | Except.error _, Except.ok _ => isFalse (fun hc => Except.noConfusion hc)
    | Except.error a, Except.error b =>
      if h : a = b then isTrue (by rw [h])
      else isFalse (fun hc => h (Except.error.inj hc))

/-- The observable outcome of one `uploadFileIntoS3` call: the PUTs it
issued, the log entries it emitted, and its settled promise result. -/
structure FileOutcome where
  puts : List PutOp
  logs : List LogEntry
  result : Except JsError Unit
  deriving DecidableEq

/-- The handler's response object `\x7b statusCode \x7d`. -/
structure LambdaResponse where
  statusCode : Nat
  deriving DecidableEq

/-- The observable outcome of one `upload` invocation: PUTs issued, log
entries emitted, and the settled result of the handler's promise. -/
structure UploadOutcome where
  puts : List PutOp
  logs : List LogEntry
  result : Except JsError LambdaResponse
  deriving DecidableEq

/-- JS template-literal interpolation of a possibly-`undefined` string
value: `undefined` prints as the text `undefined`. -/
def jsTemplate : Option String → String
  | none => "undefined"
  | some s => s

/-- Lines 90-117: check the file's headers; `headers == null` (null or
undefined) throws the missing-headers error; otherwise the declared
`content-type` is compared against six literals in order, and any other
value (including `undefined`, when the key is absent) throws the
unsupported-content-type error with the value interpolated. -/
def getFileExtension (file : FileRecord) : Except JsError String :=
  match file.headers with
  | none => Except.error (JsError.error "Missing \"headers\" from request")
  | some headers =>
    let contentType := List.lookup "content-type" headers
    if contentType = some "image/jpeg" then Except.ok "jpg"
    else if contentType = some "image/png" then Except.ok "png"
    else if contentType = some "text/html" then Except.ok "html"
    else if contentType = some "text/css" then Except.ok "css"
    else if contentType = some "application/javascript" then Except.ok "javascript"
    else if contentType = some "application/json" then Except.ok "json"
    else Except.error (JsError.error
      ("Unsupported content type \"" ++ jsTemplate contentType ++ "\"."))

/-- Lines 63-80: derive the extension, assemble the PUT options with key
`uuid ++ "." ++ ext`, and call `s3.upload`.  If the PUT fails the error is
logged and rethrown.  If the PUT succeeds, the success `console.log` first
evaluates its template literal, which reads the undeclared identifier
`fileName` and raises a ReferenceError; the `catch` block logs that error
and rethrows it, so this branch also rejects. -/
def uploadFileIntoS3 (s3 : PutOp → Option JsError) (bucket : Option String)
    (uuid : String) (file : FileRecord) : FileOutcome :=
  match getFileExtension file with
  | Except.error e => ⟨[], [], Except.error e⟩
  | Except.ok ext =>
    let options : PutOp := ⟨bucket, uuid ++ "." ++ ext, file⟩
    match s3 options with
    | some err => ⟨[options], [LogEntry.logError err], Except.error err⟩
    | none =>
      ⟨[options], [LogEntry.logError (JsError.referenceError "fileName")],
        Except.error (JsError.referenceError "fileName")⟩

/-- Lines 39-51: the promise settles on the first decoder notification:
a `finish` event resolves it with the fields and files, an `error` event
rejects it; later notifications cannot change a settled promise.  `none`
means the decoder emitted nothing and the promise never settles. -/
def parseMultipartFormData : List ParserEvent → Option (Except JsError MultipartResult)
  | [] => none
  | ParserEvent.finish r :: _ => some (Except.ok ⟨r.fields, r.files⟩)
  | ParserEvent.error e :: _ => some (Except.error e)

/-- Lines 22-26, the fan-out of `files.map`: every file gets its own
`uploadFileIntoS3` call with a fresh uuid (indexed by position), started
regardless of whether siblings fail. -/
def dispatchFilesFrom (s3 : PutOp → Option JsError) (bucket : Option String)
    (uuids : Nat → String) : Nat → List FileRecord → List FileOutcome
  | _, [] => []
  | i, f :: fs =>
    uploadFileIntoS3 s3 bucket (uuids i) f ::
      dispatchFilesFrom s3 bucket uuids (i + 1) fs

/-- All per-file outcomes of one batch, in file order, uuids drawn from the
supply by position. -/
def dispatchFiles (s3 : PutOp → Option JsError) (bucket : Option String)
    (uuids : Nat → String) (files : List FileRecord) : List FileOutcome :=
  dispatchFilesFrom s3 bucket uuids 0 files

/-- The rejection `Promise.all` propagates: the first error among the
per-file results (settlement order taken as list order); `none` when every
per-file promise fulfilled. -/
def firstError : List FileOutcome → Option JsError
  | [] => none
  | o :: os =>
    match o.result with
    | Except.error e => some e
    | Except.ok _ => firstError os

/-- The join of `Promise.all` at lines 22-31: all PUTs and logs of all
per-file operations happen either way; if any per-file promise rejected the
aggregate rejects with the first such error, otherwise the handler returns
`\x7b statusCode: 201 \x7d`. -/
def aggregate (outcomes : List FileOutcome) : UploadOutcome :=
  match firstError outcomes with
  | some e =>
    ⟨(outcomes.map FileOutcome.puts).flatten, (outcomes.map FileOutcome.logs).flatten,
      Except.error e⟩
  | none =>
    ⟨(outcomes.map FileOutcome.puts).flatten, (outcomes.map FileOutcome.logs).flatten,
      Except.ok ⟨201⟩⟩

/-- Lines 13-31, the handler: await the parse (a parse rejection propagates
and nothing else runs; an unsettled parse leaves the invocation unsettled,
modelled as `none`); if `files == null || files.length == 0` return
`\x7b statusCode: 200 \x7d`; otherwise dispatch every file and join. -/
def upload (s3 : PutOp → Option JsError) (bucket : Option String)
    (uuids : Nat → String) (events : List ParserEvent) : Option UploadOutcome :=
  match parseMultipartFormData events with
  | none => none
  | some (Except.error e) => some ⟨[], [], Except.error e⟩
  | some (Except.ok result) =>
    match result.files with
    | none => some ⟨[], [], Except.ok ⟨200⟩⟩
    | some files =>
      if files.length = 0 then some ⟨[], [], Except.ok ⟨200⟩⟩
      else some (aggregate (dispatchFiles s3 bucket uuids files))

/-- The spec's fixed six-entry content-type table, stated as data so that
`getFileExtension` (written from the source's if-chain) can be compared
against it. -/
def extensionTable : List (String × String) :=
  [("image/jpeg", "jpg"), ("image/png", "png"), ("text/html", "html"),
   ("text/css", "css"), ("application/javascript", "javascript"),
   ("application/json", "json")]

/-- Characters a uuid key prefix may use, for the key pattern of the
spec's concrete scenario. -/
def uuidChars : List Char := "0123456789abcdef-".data

/-- Decidable rendering of the key pattern from the spec's concrete
scenario: 36 characters drawn from `[0-9a-f-]`, then a dot and the
extension. -/
def keyMatchesUuidExt (ext key : String) : Bool :=
  (key.data.take 36).all (fun c => uuidChars.contains c) &&
    decide (key.data.drop 36 = '.' :: ext.data) &&
    decide (key.data.length = 37 + ext.data.length)

/-- Concrete scenario file: one part with content-type `image/jpeg` and
body bytes `abc`. -/
def jpegAbcFile : FileRecord := ⟨some [("content-type", "image/jpeg")], "abc"⟩

/-- Concrete scenario file: a second part with content-type
`application/json`. -/
def jsonFile : FileRecord := ⟨some [("content-type", "application/json")], "data2"⟩

/-- A concrete uuid supply: a distinct well-formed uuid per file
position. -/
def sampleUuids : Nat → String := fun i =>
  if i = 0 then "0f61ebf2-8b39-44a8-9f2a-170e8a4882f0"
  else "1a2b3c4d-5e6f-4a8b-9c0d-1e2f3a4b5c6d"

/-- Decoder events for a valid two-file batch. -/
def twoFileEvents : List ParserEvent :=
  [ParserEvent.finish ⟨[], some [jpegAbcFile, jsonFile]⟩]

/-- Decoder events for the spec's one-jpeg concrete scenario. -/
def oneJpegEvents : List ParserEvent :=
  [ParserEvent.finish ⟨[], some [jpegAbcFile]⟩]

/-- A second jpeg file, used as the store that fails in the aggregate
fail-fast scenario. -/
def jpegBadFile : FileRecord := ⟨some [("content-type", "image/jpeg")], "bad"⟩

/-- An S3 oracle that fails exactly the PUT carrying `jpegBadFile` and lets
every other PUT succeed. -/
def failSecondS3 : PutOp → Option JsError := fun op =>
  if op.body = jpegBadFile then some (JsError.storageError "AccessDenied") else none

/-- A short deterministic uuid supply for the fail-fast scenario. -/
def shortUuids : Nat → String := fun i => if i = 0 then "u0" else "u1"

/-- Decoder events of the fail-fast scenario: first file succeeds at S3,
second file's PUT fails. -/
def failSecondEvents : List ParserEvent :=
  [ParserEvent.finish ⟨[], some [jpegAbcFile, jpegBadFile]⟩]

theorem uploadFileIntoS3_always_errors (s3 : PutOp → Option JsError)
    (bucket : Option String) (uuid : String) (file : FileRecord) :
    ∃ e, (uploadFileIntoS3 s3 bucket uuid file).result = Except.error e := by
  unfold uploadFileIntoS3
  cases hge : getFileExtension file with
  | error e => exact ⟨e, rfl⟩
  | ok ext =>
    cases hs3 : s3 ⟨bucket, uuid ++ "." ++ ext, file⟩ with
    | some err => exact ⟨err, by simp [hs3]⟩
    | none => exact ⟨JsError.referenceError "fileName", by simp [hs3]⟩

theorem aggregate_result_of_firstError (os : List FileOutcome) (e : JsError)
    (h : firstError os = some e) : (aggregate os).result = Except.error e := by
  unfold aggregate
  rw [h]

/-- Claim C1: for a valid two-file batch with supported content-types the
code does issue exactly N = 2 PUTs, one per file, with distinct keys ending
in the correct extensions — but the handler rejects with
`ReferenceError: fileName is not defined` (raised by the success log line)
instead of resolving with statusCode 201. -/
theorem upload_batch_puts_but_no_201 :
    upload (fun _ => none) (some "bucket") sampleUuids twoFileEvents = some
      ⟨[⟨some "bucket", "0f61ebf2-8b39-44a8-9f2a-170e8a4882f0.jpg", jpegAbcFile⟩,
        ⟨some "bucket", "1a2b3c4d-5e6f-4a8b-9c0d-1e2f3a4b5c6d.json", jsonFile⟩],
       [LogEntry.logError (JsError.referenceError "fileName"),
        LogEntry.logError (JsError.referenceError "fileName")],
       Except.error (JsError.referenceError "fileName")⟩ ∧
    ("0f61ebf2-8b39-44a8-9f2a-170e8a4882f0.jpg" : String) ≠
      "1a2b3c4d-5e6f-4a8b-9c0d-1e2f3a4b5c6d.json" := by
  exact ⟨rfl, by decide⟩

/-- Claim C2: the spec's one-jpeg concrete scenario: exactly one PUT is
issued, into the configured bucket, with key `<uuid>.jpg` matching the
pattern and body bytes `abc` — but the handler rejects with the
`fileName` ReferenceError instead of resolving with statusCode 201. -/
theorem upload_single_jpeg_put_but_no_201 :
    upload (fun _ => none) (some "bucket") sampleUuids oneJpegEvents = some
      ⟨[⟨some "bucket", "0f61ebf2-8b39-44a8-9f2a-170e8a4882f0.jpg", jpegAbcFile⟩],
       [LogEntry.logError (JsError.referenceError "fileName")],
       Except.error (JsError.referenceError "fileName")⟩ ∧
    keyMatchesUuidExt "jpg" "0f61ebf2-8b39-44a8-9f2a-170e8a4882f0.jpg" = true ∧
    jpegAbcFile.content = "abc" := by
  exact ⟨rfl, by decide, rfl⟩

/-- Claim C3: extension derivation agrees with the fixed six-entry table:
whenever the declared content-type is in the table the matching extension
is returned, and any content-type outside the table yields the
unsupported-content-type error with the value interpolated — no fallback
path exists. -/
theorem getFileExtension_table_lookup (file : FileRecord) (hs : Headers)
    (hh : file.headers = some hs) :
    (∀ ct ext, List.lookup "content-type" hs = some ct → (ct, ext) ∈ extensionTable →
      getFileExtension file = Except.ok ext) ∧
    (∀ ct, List.lookup "content-type" hs = some ct →
      (∀ ext, (ct, ext) ∉ extensionTable) →
      getFileExtension file = Except.error
        (JsError.error ("Unsupported content type \"" ++ ct ++ "\"."))) := by
  constructor
  · intro ct ext hct hmem
    simp only [extensionTable, List.mem_cons, List.not_mem_nil, or_false,
      Prod.mk.injEq] at hmem
    rcases hmem with ⟨h1, h2⟩ | ⟨h1, h2⟩ | ⟨h1, h2⟩ | ⟨h1, h2⟩ | ⟨h1, h2⟩ | ⟨h1, h2⟩ <;>
      subst h1 <;> subst h2 <;> simp +decide [getFileExtension, hh, hct]
  · intro ct hct hnot
    have h1 : ¬(ct = "image/jpeg") := fun he => hnot "jpg" (by simp [extensionTable, he])
    have h2 : ¬(ct = "image/png") := fun he => hnot "png" (by simp [extensionTable, he])
    have h3 : ¬(ct = "text/html") := fun he => hnot "html" (by simp [extensionTable, he])
    have h4 : ¬(ct = "text/css") := fun he => hnot "css" (by simp [extensionTable, he])
    have h5 : ¬(ct = "application/javascript") := fun he =>
      hnot "javascript" (by simp [extensionTable, he])
    have h6 : ¬(ct = "application/json") := fun he =>
      hnot "json" (by simp [extensionTable, he])
    simp [getFileExtension, hh, hct, h1, h2, h3, h4, h5, h6, jsTemplate]

/-- Claim C3 witness: a png file gets extension `png` through the table. -/
theorem getFileExtension_table_lookup_witness :
    getFileExtension ⟨some [("content-type", "image/png")], "x"⟩ = Except.ok "png" :=
  (getFileExtension_table_lookup ⟨some [("content-type", "image/png")], "x"⟩
    [("content-type", "image/png")] rfl).1 "image/png" "png" rfl (by decide)

/-- Claim C4: when the decoder's first notification is an error, the parse
promise rejects with exactly that error, the rejection propagates out of
the handler, and no storage PUT is issued. -/
theorem parse_error_propagates_no_puts (s3 : PutOp → Option JsError)
    (bucket : Option String) (uuids : Nat → String) (e : JsError)
    (rest : List ParserEvent) :
    upload s3 bucket uuids (ParserEvent.error e :: rest) =
      some ⟨[], [], Except.error e⟩ := rfl

/-- Claim C5: a valid parse that produces an empty file list (whatever
non-file fields are present) makes the handler resolve with statusCode 200
and issue no storage PUT. -/
theorem upload_zero_files_200 (s3 : PutOp → Option JsError)
    (bucket : Option String) (uuids : Nat → String)
    (fields : List (String × String)) (rest : List ParserEvent) :
    upload s3 bucket uuids (ParserEvent.finish ⟨fields, some []⟩ :: rest) =
      some ⟨[], [], Except.ok ⟨200⟩⟩ := rfl

/-- Claim C6: in a two-file batch where the first file's PUT succeeds and
the second file's PUT fails, the failing store's error is logged and
re-raised by its own `uploadFileIntoS3` call, both PUTs stay issued (no
compensating delete, no rollback), and the aggregate rejects — but the
error it propagates is the `fileName` ReferenceError produced by the
sibling whose store succeeded, not the failing store's error. -/
theorem store_failure_logged_reraised_no_rollback :
    upload failSecondS3 (some "bucket") shortUuids failSecondEvents = some
      ⟨[⟨some "bucket", "u0.jpg", jpegAbcFile⟩, ⟨some "bucket", "u1.jpg", jpegBadFile⟩],
       [LogEntry.logError (JsError.referenceError "fileName"),
        LogEntry.logError (JsError.storageError "AccessDenied")],
       Except.error (JsError.referenceError "fileName")⟩ ∧
    (uploadFileIntoS3 failSecondS3 (some "bucket") "u1" jpegBadFile).result =
      Except.error (JsError.storageError "AccessDenied") ∧
    (uploadFileIntoS3 failSecondS3 (some "bucket") "u1" jpegBadFile).logs =
      [LogEntry.logError (JsError.storageError "AccessDenied")] ∧
    (uploadFileIntoS3 failSecondS3 (some "bucket") "u0" jpegAbcFile).result =
      Except.error (JsError.referenceError "fileName") := by
  exact ⟨rfl, rfl, rfl, rfl⟩

/-- Claim C7: a file record with no headers object makes its own
`uploadFileIntoS3` call reject with the missing-headers error (issuing no
PUT for that file), and any batch containing such a file makes the whole
handler reject. -/
theorem missing_headers_fails_file_and_batch (s3 : PutOp → Option JsError)
    (bucket : Option String) (uuid : String) (file : FileRecord)
    (hh : file.headers = none) :
    uploadFileIntoS3 s3 bucket uuid file =
      ⟨[], [], Except.error (JsError.error "Missing \"headers\" from request")⟩ ∧
    ∀ (uuids : Nat → String) (fields : List (String × String))
      (files : List FileRecord) (rest : List ParserEvent), file ∈ files →
      ∃ o : UploadOutcome,
        upload s3 bucket uuids (ParserEvent.finish ⟨fields, some files⟩ :: rest) =
          some o ∧ ∃ e, o.result = Except.error e := by
  constructor
  · simp [uploadFileIntoS3, getFileExtension, hh]
  · intro uuids fields files rest hmem
    cases files with
    | nil => exact absurd hmem (List.not_mem_nil file)
    | cons f fs =>
      refine ⟨aggregate (dispatchFiles s3 bucket uuids (f :: fs)), rfl, ?_⟩
      obtain ⟨e, he⟩ := uploadFileIntoS3_always_errors s3 bucket (uuids 0) f
      have hfe : firstError (dispatchFiles s3 bucket uuids (f :: fs)) = some e := by
        simp [dispatchFiles, dispatchFilesFrom, firstError, he]
      exact ⟨e, aggregate_result_of_firstError _ e hfe⟩

/-- Claim C7 witness: a one-file batch whose file has no headers object
rejects. -/
theorem missing_headers_fails_file_and_batch_witness :
    ∃ o : UploadOutcome,
      upload (fun _ => none) none (fun _ => "u")
        (ParserEvent.finish ⟨[], some [⟨none, "x"⟩]⟩ :: []) = some o ∧
      ∃ e, o.result = Except.error e :=
  (missing_headers_fails_file_and_batch (fun _ => none) none "u" ⟨none, "x"⟩ rfl).2
    (fun _ => "u") [] [⟨none, "x"⟩] [] (by simp)

/-- Claim C8: the parse promise settles on the first decoder notification
and later notifications cannot change the result: a leading `finish` event
resolves it with the fields and files, a leading `error` event rejects it
with that error, whatever events follow. -/
theorem parse_first_signal_wins (e : ParserEvent) (rest : List ParserEvent) :
    parseMultipartFormData (e :: rest) = parseMultipartFormData [e] ∧
    (∀ r, e = ParserEvent.finish r →
      parseMultipartFormData (e :: rest) = some (Except.ok ⟨r.fields, r.files⟩)) ∧
    (∀ err, e = ParserEvent.error err →
      parseMultipartFormData (e :: rest) = some (Except.error err)) := by
  cases e with
  | finish r =>
    refine ⟨rfl, ?_, ?_⟩
    · intro r' h
      cases h
      rfl
    · intro err h
      cases h
  | error er =>
    refine ⟨rfl, ?_, ?_⟩
    · intro r' h
      cases h
    · intro err h
      cases h
      rfl

/-- Claim C8 witness: a `finish` followed by an `error` still resolves with
the finish result. -/
theorem parse_first_signal_wins_witness :
    parseMultipartFormData
      [ParserEvent.finish ⟨[("name", "foo")], none⟩,
       ParserEvent.error (JsError.parseError "bad body")] =
      some (Except.ok ⟨[("name", "foo")], none⟩) :=
  (parse_first_signal_wins (ParserEvent.finish ⟨[("name", "foo")], none⟩)
    [ParserEvent.error (JsError.parseError "bad body")]).2.1 ⟨[("name", "foo")], none⟩ rfl

/-- Claim C9: a parse result whose files value is null or undefined is
treated exactly like an empty file list: statusCode 200 and no storage
PUT. -/
theorem upload_null_files_200 (s3 : PutOp → Option JsError)
    (bucket : Option String) (uuids : Nat → String)
    (fields : List (String × String)) (rest : List ParserEvent) :
    upload s3 bucket uuids (ParserEvent.finish ⟨fields, none⟩ :: rest) =
      some ⟨[], [], Except.ok ⟨200⟩⟩ := rfl

/-- Claim C10: a headers object that lacks a content-type key produces the
unsupported-content-type error with the text `undefined` interpolated, not
the missing-headers error; the missing-headers error occurs exactly when
the headers object itself is null or undefined. -/
theorem unsupported_vs_missing_headers :
    (∀ (file : FileRecord) (hs : Headers), file.headers = some hs →
      List.lookup "content-type" hs = none →
      getFileExtension file =
        Except.error (JsError.error "Unsupported content type \"undefined\".")) ∧
    (∀ file : FileRecord, file.headers = none →
      getFileExtension file =
        Except.error (JsError.error "Missing \"headers\" from request")) := by
  constructor
  · intro file hs hh hct
    simp [getFileExtension, hh, hct, jsTemplate]
  · intro file hh
    simp [getFileExtension, hh]

/-- Claim C10 witness: headers present but without a content-type key. -/
theorem unsupported_vs_missing_headers_witness :
    getFileExtension ⟨some [("filename", "a.bin")], "x"⟩ =
      Except.error (JsError.error "Unsupported content type \"undefined\".") :=
  unsupported_vs_missing_headers.1 ⟨some [("filename", "a.bin")], "x"⟩
    [("filename", "a.bin")] rfl rfl
